import Mathlib

/-!
Verification of the selection-overlay window logic of normcap
(src/normcap/gui/base_window.py): a shallow embedding of the geometry
utilities, the per-window selection state machine and the platform
fullscreen dispatch, together with theorems about them.

Conventions of the embedding:
- Qt event handlers become a pure step function from a window state and an
  incoming event to the successor state and the list of signals emitted by
  the handler, in emission order.  A repaint request (self.update()) is a
  redraw, not a signal, and is not recorded.
- Machine integers of the Python code are modelled as Int (Python integers
  are unbounded, so no wrap-around modelling is needed).
- The raise in set_fullscreen becomes Except.error.
-/

namespace Normcap

/-- Modelled from the spec: the Rect type of normcap.models (models.py is not
under src/) — four signed integer edges (top, left, bottom, right); the
default-constructed rectangle (Python Rect()) is empty, all edges zero. -/
structure Rect where
  top : Int := 0
  left : Int := 0
  bottom : Int := 0
  right : Int := 0
deriving DecidableEq, Repr

/-- Modelled from the spec: one screen's geometry rectangle (top, left,
width, height) in global desktop coordinates, from normcap.models (not
under src/). -/
structure ScreenGeometry where
  top : Int := 0
  left : Int := 0
  width : Int := 0
  height : Int := 0
deriving DecidableEq, Repr

/-- Modelled from the spec: the Platform enumeration of normcap.models (not
under src/), identifying the OS (Linux / macOS / Windows).  The constructor
`other` represents any further platform value; the spec's fullscreen
dispatch treats such a value as an unsupported platform and fails fatally. -/
inductive Platform where
  | LINUX
  | MACOS
  | WINDOWS
  | other (name : String)
deriving DecidableEq, Repr

/-- Modelled from the spec: the DisplayManager enumeration of normcap.models
(not under src/), identifying the Linux display server (X11-like vs
Wayland). -/
inductive DisplayManager where
  | WAYLAND
  | X11
deriving DecidableEq, Repr

/-- Modelled from the spec: the CaptureMode enumeration of normcap.models
(not under src/), owned by the external capture collaborator.  The named
members are RAW and PARSE; the constructor `other` represents any further
mode value, for which the indicator-glyph lookup falls through to the
empty string. -/
inductive CaptureMode where
  | RAW
  | PARSE
  | other
deriving DecidableEq, Repr

/-- The fixed margin correction of BaseWindow._sanatize_rect
(base_window.py line 95). -/
def margin_correction : Int := 4

/-- BaseWindow._sanatize_rect (base_window.py lines 86-107): if the vertical
span is inverted, swap top and bottom and pull both resulting edges inward
by the margin correction; then the same, independently, for the horizontal
span. -/
def sanatize_rect (rect : Rect) : Rect :=
  let rect :=
    if rect.top > rect.bottom then
      let bottom := rect.top - margin_correction
      let top := rect.bottom + margin_correction
      { rect with top := top, bottom := bottom }
    else rect
  let rect :=
    if rect.left > rect.right then
      let left := rect.right + margin_correction
      let right := rect.left - margin_correction
      { rect with right := right, left := left }
    else rect
  rect

/-- BaseWindow._to_global_rect (base_window.py lines 65-84): add the owning
screen's (left, top) offset to the respective axis when that offset is
non-zero, then shrink inward on all four sides by the pen width. -/
def to_global_rect (screen : ScreenGeometry) (pw : Int) (rect : Rect) : Rect :=
  let offset_x := screen.left
  let offset_y := screen.top
  let rect :=
    if offset_x ≠ 0 then
      { rect with left := rect.left + offset_x, right := rect.right + offset_x }
    else rect
  let rect :=
    if offset_y ≠ 0 then
      { rect with top := rect.top + offset_y, bottom := rect.bottom + offset_y }
    else rect
  { rect with
    left := rect.left + pw
    top := rect.top + pw
    right := rect.right - pw
    bottom := rect.bottom - pw }

/-- BaseWindow._get_mode_indicator_char (base_window.py lines 109-114). -/
def get_mode_indicator_char (mode : CaptureMode) : String :=
  if mode = CaptureMode.RAW then "☰"
  else if mode = CaptureMode.PARSE then "★"
  else ""

/-- Names the platform-specific fullscreen procedure that set_fullscreen
dispatches to (base_window.py lines 221-285). -/
inductive FullscreenStrategy where
  | linux_wayland
  | macos
  | windows
deriving DecidableEq, Repr

/-- Printable platform name used in the NotImplementedError message. -/
def platform_name : Platform → String
  | Platform.LINUX => "Platform.LINUX"
  | Platform.MACOS => "Platform.MACOS"
  | Platform.WINDOWS => "Platform.WINDOWS"
  | Platform.other n => n

/-- BaseWindow.set_fullscreen (base_window.py lines 202-219): dispatch on
platform (and, on Linux, on display manager) to one of the fullscreen
procedures; any other platform raises NotImplementedError, modelled as
Except.error. -/
def set_fullscreen (platform : Platform) (display_manager : DisplayManager) :
    Except String FullscreenStrategy :=
  if platform = Platform.LINUX then
    if display_manager = DisplayManager.WAYLAND then
      Except.ok FullscreenStrategy.linux_wayland
    else
      Except.ok FullscreenStrategy.linux_wayland
  else if platform = Platform.MACOS then
    Except.ok FullscreenStrategy.macos
  else if platform = Platform.WINDOWS then
    Except.ok FullscreenStrategy.windows
  else
    Except.error ("Platform " ++ platform_name platform ++ " not supported")

/-- The mutable per-window state touched by the event handlers of
BaseWindow (base_window.py lines 37-41). -/
structure WindowState where
  selection_rect : Rect
  is_selecting : Bool
  mode_indicator : String
  is_positioned : Bool
  pen_width : Int
deriving DecidableEq, Repr

/-- The per-window state right after BaseWindow.__init__
(base_window.py lines 37-41): empty selection rectangle, not selecting,
indicator glyph "?", not positioned, pen width 2. -/
def initial_window_state : WindowState :=
  { selection_rect := {}
    is_selecting := false
    mode_indicator := "?"
    is_positioned := false
    pen_width := 2 }

/-- The immutable surroundings an event handler reads: the screen list and
this window's screen index (from system_info / screen_idx), the display
manager, and the external capture mode read through main_window.capture. -/
structure WindowEnv where
  screens : List ScreenGeometry
  screen_idx : Nat
  display_manager : DisplayManager
  mode : CaptureMode
deriving Repr

/-- A mouse button; the handlers only distinguish the primary (left)
button. -/
inductive MouseButton where
  | left
  | middle
  | right
deriving DecidableEq, Repr

/-- A key press; the handler only distinguishes Escape. -/
inductive Key where
  | escape
  | other (code : Int)
deriving DecidableEq, Repr

/-- The Qt events BaseWindow handles.  Pointer positions are (x, y) in
window-local coordinates.  A change event carries whether its type is
ActivationChange and whether the window is currently active. -/
inductive Event where
  | keyPress (key : Key)
  | mousePress (button : MouseButton) (x y : Int)
  | mouseMove (x y : Int)
  | mouseRelease (button : MouseButton) (x y : Int)
  | paint
  | change (is_activation_change : Bool) (is_active_window : Bool)
deriving DecidableEq, Repr

/-- The signals BaseWindow emits through main_window.com, with their
payloads. -/
inductive Signal where
  | on_quit_or_hide (reason : String)
  | on_set_cursor_wait
  | on_minimize_windows
  | on_region_selected (rect : Rect) (screen_idx : Nat)
  | on_window_positioned
deriving DecidableEq, Repr

/-- One dispatch of an event to the corresponding BaseWindow handler
(base_window.py lines 120-196): the successor window state and the list of
signals the handler emits, in emission order. -/
def step (env : WindowEnv) (s : WindowState) : Event → WindowState × List Signal
  | Event.keyPress key =>
    match key with
    | Key.escape =>
      if s.is_selecting then
        ({ s with is_selecting := false }, [])
      else
        (s, [Signal.on_quit_or_hide "esc button pressed"])
    | Key.other _ => (s, [])
  | Event.mousePress button x y =>
    match button with
    | MouseButton.left =>
      ({ s with
          is_selecting := true
          mode_indicator := get_mode_indicator_char env.mode
          selection_rect := { top := y, left := x, bottom := y, right := x } },
        [])
    | _ => (s, [])
  | Event.mouseMove x y =>
    ({ s with
        selection_rect := { s.selection_rect with bottom := y, right := x } },
      [])
  | Event.mouseRelease button x y =>
    match button with
    | MouseButton.left =>
      if s.is_selecting then
        let selection_rect := { s.selection_rect with bottom := y, right := x }
        let capture_rect := selection_rect
        let capture_rect :=
          to_global_rect (env.screens.getD env.screen_idx {}) s.pen_width
            capture_rect
        let capture_rect := sanatize_rect capture_rect
        ({ s with is_selecting := false, selection_rect := {} },
          [Signal.on_set_cursor_wait, Signal.on_minimize_windows,
            Signal.on_region_selected capture_rect env.screen_idx])
      else (s, [])
    | _ => (s, [])
  | Event.paint => (s, [])
  | Event.change is_activation_change is_active_window =>
    if is_activation_change = true ∧
        env.display_manager = DisplayManager.WAYLAND ∧
        is_active_window = true ∧ s.is_positioned = false then
      ({ s with is_positioned := true }, [Signal.on_window_positioned])
    else (s, [])

/-!
Helper lemmas: the four edges of a sanitized rectangle, each as a function
of the input edges of its own axis only.
-/

theorem sanatize_rect_top (r : Rect) :
    (sanatize_rect r).top =
      if r.top > r.bottom then r.bottom + margin_correction else r.top := by
  unfold sanatize_rect
  by_cases h1 : r.top > r.bottom <;> by_cases h2 : r.left > r.right <;>
    simp [h1, h2]

theorem sanatize_rect_bottom (r : Rect) :
    (sanatize_rect r).bottom =
      if r.top > r.bottom then r.top - margin_correction else r.bottom := by
  unfold sanatize_rect
  by_cases h1 : r.top > r.bottom <;> by_cases h2 : r.left > r.right <;>
    simp [h1, h2]

theorem sanatize_rect_left (r : Rect) :
    (sanatize_rect r).left =
      if r.left > r.right then r.right + margin_correction else r.left := by
  unfold sanatize_rect
  by_cases h1 : r.top > r.bottom <;> by_cases h2 : r.left > r.right <;>
    simp [h1, h2]

theorem sanatize_rect_right (r : Rect) :
    (sanatize_rect r).right =
      if r.left > r.right then r.left - margin_correction else r.right := by
  unfold sanatize_rect
  by_cases h1 : r.top > r.bottom <;> by_cases h2 : r.left > r.right <;>
    simp [h1, h2]

/-!
Concrete sample data used by the witness theorems.
-/

/-- A sample screen geometry with both offsets zero. -/
def zero_screen : ScreenGeometry :=
  { top := 0, left := 0, width := 1920, height := 1080 }

/-- A sample screen geometry with non-zero left and top offsets. -/
def offset_screen : ScreenGeometry :=
  { top := 1080, left := 1920, width := 1920, height := 1080 }

/-- A sample side-by-side second screen: non-zero left offset, zero top
offset (the spec's end-to-end example geometry). -/
def side_screen : ScreenGeometry :=
  { top := 0, left := 1920, width := 1920, height := 1080 }

/-- A sample window-local rectangle (an upward-right drag, inverted
vertical span). -/
def sample_rect : Rect := { top := 100, left := 100, bottom := 50, right := 300 }

/-- A sample environment: two screens, this window on screen 1,
Wayland, RAW capture mode. -/
def sample_env : WindowEnv :=
  { screens := [zero_screen, side_screen]
    screen_idx := 1
    display_manager := DisplayManager.WAYLAND
    mode := CaptureMode.RAW }

/-- A sample window state in the middle of a drag selection. -/
def selecting_state : WindowState :=
  { initial_window_state with
    is_selecting := true
    selection_rect := { top := 100, left := 100, bottom := 100, right := 100 } }

/-!
Claim theorems.
-/

/-- C1: the claim says sanitize always returns a rectangle with
top ≤ bottom and left ≤ right.  This theorem evaluates the code at the
failing input Rect(top := 5, left := 0, bottom := 0, right := 0): the
unconditional margin correction of 4 overshoots an inverted span smaller
than 8, so the result Rect(top := 4, left := 0, bottom := 1, right := 0)
still has top > bottom, contradicting the claim and the function's own
docstring. -/
theorem sanatize_rect_small_span_stays_inverted :
    sanatize_rect { top := 5, left := 0, bottom := 0, right := 0 } =
      { top := 4, left := 0, bottom := 1, right := 0 } ∧
    (sanatize_rect { top := 5, left := 0, bottom := 0, right := 0 }).bottom <
      (sanatize_rect { top := 5, left := 0, bottom := 0, right := 0 }).top := by
  decide

/-- C2: a primary-button release while is_selecting finalizes bottom/right
at the release point, clears is_selecting, emits exactly the signals
set-cursor-wait, minimize-windows, region-selected in that order, with the
region payload equal to the finalized selection rectangle transformed by
to_global_rect then sanatize_rect, paired with the owning screen index,
and resets selection_rect to the empty rectangle. -/
theorem mouse_release_completes_selection (env : WindowEnv) (s : WindowState)
    (x y : Int) (h : s.is_selecting = true) :
    step env s (Event.mouseRelease MouseButton.left x y) =
      ({ s with is_selecting := false, selection_rect := {} },
        [Signal.on_set_cursor_wait, Signal.on_minimize_windows,
          Signal.on_region_selected
            (sanatize_rect
              (to_global_rect (env.screens.getD env.screen_idx {}) s.pen_width
                { s.selection_rect with bottom := y, right := x }))
            env.screen_idx]) := by
  simp [step, h]

/-- Witness for C2 at a concrete environment, state and release point. -/
theorem mouse_release_completes_selection_witness :
    selecting_state.is_selecting = true ∧
    step sample_env selecting_state (Event.mouseRelease MouseButton.left 300 50) =
      ({ selecting_state with is_selecting := false, selection_rect := {} },
        [Signal.on_set_cursor_wait, Signal.on_minimize_windows,
          Signal.on_region_selected
            (sanatize_rect
              (to_global_rect (sample_env.screens.getD sample_env.screen_idx {})
                selecting_state.pen_width
                { selecting_state.selection_rect with bottom := 50, right := 300 }))
            sample_env.screen_idx]) :=
  ⟨rfl, mouse_release_completes_selection sample_env selecting_state 300 50 rfl⟩

/-- C3: with the pen width 2 set at construction, to_global_rect translates
each axis by exactly that axis's screen offset (a zero offset translating
by nothing) and then shrinks inward by 2 on all four sides — stated as a
hypothesis-free equality pinning all four edges for every screen, so it
covers mixed screens with one zero and one non-zero offset; the second
conjunct restates the claim's both-offsets-zero case: only the border
shrink, position untranslated. -/
theorem to_global_rect_offset_and_shrink (g : ScreenGeometry) (r : Rect) :
    to_global_rect g 2 r =
      { top := r.top + g.top + 2, left := r.left + g.left + 2,
        bottom := r.bottom + g.top - 2, right := r.right + g.left - 2 } ∧
    (g.left = 0 → g.top = 0 →
      to_global_rect g 2 r =
        { top := r.top + 2, left := r.left + 2,
          bottom := r.bottom - 2, right := r.right - 2 }) := by
  constructor
  · by_cases hl : g.left = 0 <;> by_cases ht : g.top = 0 <;>
      simp [to_global_rect, hl, ht, Rect.mk.injEq]
  · intro hl ht
    simp [to_global_rect, hl, ht]

/-- Witness for C3: the full four-edge characterization at a side-by-side
screen with non-zero left and zero top offset, and the untranslated
shrink at an all-zero-offset screen. -/
theorem to_global_rect_offset_and_shrink_witness :
    (side_screen.left ≠ 0 ∧ side_screen.top = 0 ∧
      zero_screen.left = 0 ∧ zero_screen.top = 0) ∧
    to_global_rect side_screen 2 sample_rect =
      { top := sample_rect.top + side_screen.top + 2,
        left := sample_rect.left + side_screen.left + 2,
        bottom := sample_rect.bottom + side_screen.top - 2,
        right := sample_rect.right + side_screen.left - 2 } ∧
    to_global_rect offset_screen 2 sample_rect =
      { top := sample_rect.top + offset_screen.top + 2,
        left := sample_rect.left + offset_screen.left + 2,
        bottom := sample_rect.bottom + offset_screen.top - 2,
        right := sample_rect.right + offset_screen.left - 2 } ∧
    to_global_rect zero_screen 2 sample_rect =
      { top := sample_rect.top + 2, left := sample_rect.left + 2,
        bottom := sample_rect.bottom - 2, right := sample_rect.right - 2 } :=
  ⟨⟨by decide, rfl, rfl, rfl⟩,
    (to_global_rect_offset_and_shrink side_screen sample_rect).1,
    (to_global_rect_offset_and_shrink offset_screen sample_rect).1,
    (to_global_rect_offset_and_shrink zero_screen sample_rect).2 rfl rfl⟩

/-- C4: the horizontal edges of a sanitized rectangle depend only on the
input's horizontal edges, and the vertical edges only on the input's
vertical edges: the two axis corrections are fully independent, so
correcting an inverted vertical span leaves left and right exactly as the
horizontal rule alone dictates, and vice versa. -/
theorem sanatize_rect_axis_independent (r1 r2 : Rect) :
    (r1.left = r2.left → r1.right = r2.right →
      (sanatize_rect r1).left = (sanatize_rect r2).left ∧
      (sanatize_rect r1).right = (sanatize_rect r2).right) ∧
    (r1.top = r2.top → r1.bottom = r2.bottom →
      (sanatize_rect r1).top = (sanatize_rect r2).top ∧
      (sanatize_rect r1).bottom = (sanatize_rect r2).bottom) := by
  constructor
  · intro hl hr
    rw [sanatize_rect_left, sanatize_rect_left, sanatize_rect_right,
      sanatize_rect_right, hl, hr]
    exact ⟨rfl, rfl⟩
  · intro ht hb
    rw [sanatize_rect_top, sanatize_rect_top, sanatize_rect_bottom,
      sanatize_rect_bottom, ht, hb]
    exact ⟨rfl, rfl⟩

/-- Witness for C4: two rectangles sharing horizontal edges, one with an
inverted vertical span, get identical sanitized horizontal edges. -/
theorem sanatize_rect_axis_independent_witness :
    (({ top := 0, left := 3, bottom := 10, right := 1 } : Rect).left =
        ({ top := 9, left := 3, bottom := 2, right := 1 } : Rect).left ∧
      ({ top := 0, left := 3, bottom := 10, right := 1 } : Rect).right =
        ({ top := 9, left := 3, bottom := 2, right := 1 } : Rect).right) ∧
    (sanatize_rect { top := 0, left := 3, bottom := 10, right := 1 }).left =
      (sanatize_rect { top := 9, left := 3, bottom := 2, right := 1 }).left ∧
    (sanatize_rect { top := 0, left := 3, bottom := 10, right := 1 }).right =
      (sanatize_rect { top := 9, left := 3, bottom := 2, right := 1 }).right :=
  ⟨⟨rfl, rfl⟩,
    (sanatize_rect_axis_independent
      { top := 0, left := 3, bottom := 10, right := 1 }
      { top := 9, left := 3, bottom := 2, right := 1 }).1 rfl rfl⟩

/-- C5: whenever a dispatched event changes is_selecting, the change is
false to true on a primary-button press, or true to false on a
primary-button release or an Escape key press; no other event changes the
flag (and, the flag being a single boolean per window, at most one
selection is in progress per window). -/
theorem is_selecting_transitions (env : WindowEnv) (s : WindowState)
    (e : Event) (h : (step env s e).1.is_selecting ≠ s.is_selecting) :
    (s.is_selecting = false ∧ (step env s e).1.is_selecting = true ∧
      ∃ x y, e = Event.mousePress MouseButton.left x y) ∨
    (s.is_selecting = true ∧ (step env s e).1.is_selecting = false ∧
      ((∃ x y, e = Event.mouseRelease MouseButton.left x y) ∨
        e = Event.keyPress Key.escape)) := by
  cases e with
  | keyPress k =>
    cases k with
    | escape =>
      cases hs : s.is_selecting with
      | false => simp [step, hs] at h
      | true => exact Or.inr ⟨rfl, by simp [step, hs], Or.inr rfl⟩
    | other c => simp [step] at h
  | mousePress b x y =>
    cases b with
    | left =>
      cases hs : s.is_selecting with
      | false => exact Or.inl ⟨rfl, by simp [step], ⟨x, y, rfl⟩⟩
      | true => simp [step, hs] at h
    | middle => simp [step] at h
    | right => simp [step] at h
  | mouseMove x y => simp [step] at h
  | mouseRelease b x y =>
    cases b with
    | left =>
      cases hs : s.is_selecting with
      | false => simp [step, hs] at h
      | true => exact Or.inr ⟨rfl, by simp [step, hs], Or.inl ⟨x, y, rfl⟩⟩
    | middle => simp [step] at h
    | right => simp [step] at h
  | paint => simp [step] at h
  | change a w =>
    have hsel : (step env s (Event.change a w)).1.is_selecting =
        s.is_selecting := by
      simp only [step]
      split <;> rfl
    exact absurd hsel h

/-- Witness for C5: a concrete primary-button press flips the flag from
false to true. -/
theorem is_selecting_transitions_witness :
    (step sample_env initial_window_state
        (Event.mousePress MouseButton.left 0 0)).1.is_selecting ≠
      initial_window_state.is_selecting ∧
    ((initial_window_state.is_selecting = false ∧
      (step sample_env initial_window_state
        (Event.mousePress MouseButton.left 0 0)).1.is_selecting = true ∧
      ∃ x y, Event.mousePress MouseButton.left 0 0 =
        Event.mousePress MouseButton.left x y) ∨
    (initial_window_state.is_selecting = true ∧
      (step sample_env initial_window_state
        (Event.mousePress MouseButton.left 0 0)).1.is_selecting = false ∧
      ((∃ x y, Event.mousePress MouseButton.left 0 0 =
          Event.mouseRelease MouseButton.left x y) ∨
        Event.mousePress MouseButton.left 0 0 =
          Event.keyPress Key.escape))) :=
  ⟨by decide,
    is_selecting_transitions sample_env initial_window_state
      (Event.mousePress MouseButton.left 0 0) (by decide)⟩

/-- C6: an Escape key press while is_selecting clears the flag and emits no
signal at all — in particular no region-selected, quit-or-hide,
set-cursor-wait or minimize-windows signal: zero region-selected events
result from an Escape during a selection. -/
theorem escape_aborts_selection (env : WindowEnv) (s : WindowState)
    (h : s.is_selecting = true) :
    step env s (Event.keyPress Key.escape) =
      ({ s with is_selecting := false }, []) := by
  simp [step, h]

/-- Witness for C6 at a concrete environment and selecting state. -/
theorem escape_aborts_selection_witness :
    selecting_state.is_selecting = true ∧
    step sample_env selecting_state (Event.keyPress Key.escape) =
      ({ selecting_state with is_selecting := false }, []) :=
  ⟨rfl, escape_aborts_selection sample_env selecting_state rfl⟩

/-- C7: set_fullscreen succeeds (dispatching to some placement procedure,
never raising) for each of the platforms LINUX, MACOS and WINDOWS, and for
every other platform it returns the fatal unsupported-platform error
without selecting any placement procedure — there is no silent fallback
branch. -/
theorem set_fullscreen_platform_dispatch (p : Platform)
    (dm : DisplayManager) :
    ((p = Platform.LINUX ∨ p = Platform.MACOS ∨ p = Platform.WINDOWS) →
      ∃ strat, set_fullscreen p dm = Except.ok strat) ∧
    (p ≠ Platform.LINUX → p ≠ Platform.MACOS → p ≠ Platform.WINDOWS →
      set_fullscreen p dm =
        Except.error ("Platform " ++ platform_name p ++ " not supported")) := by
  constructor
  · rintro (rfl | rfl | rfl)
    · exact ⟨FullscreenStrategy.linux_wayland, by cases dm <;> simp [set_fullscreen]⟩
    · exact ⟨FullscreenStrategy.macos, by simp [set_fullscreen]⟩
    · exact ⟨FullscreenStrategy.windows, by simp [set_fullscreen]⟩
  · intro h1 h2 h3
    simp [set_fullscreen, h1, h2, h3]

/-- Witness for C7: a platform outside the three supported ones gets the
fatal error, and LINUX succeeds. -/
theorem set_fullscreen_platform_dispatch_witness :
    (Platform.other "freebsd" ≠ Platform.LINUX ∧
      Platform.other "freebsd" ≠ Platform.MACOS ∧
      Platform.other "freebsd" ≠ Platform.WINDOWS) ∧
    set_fullscreen (Platform.other "freebsd") DisplayManager.X11 =
      Except.error
        ("Platform " ++ platform_name (Platform.other "freebsd") ++
          " not supported") ∧
    (∃ strat, set_fullscreen Platform.LINUX DisplayManager.X11 =
      Except.ok strat) :=
  ⟨⟨by decide, by decide, by decide⟩,
    (set_fullscreen_platform_dispatch (Platform.other "freebsd")
      DisplayManager.X11).2 (by decide) (by decide) (by decide),
    (set_fullscreen_platform_dispatch Platform.LINUX DisplayManager.X11).1
      (Or.inl rfl)⟩

/-- C8: the mode indicator computed when a primary-button press starts a
selection is the glyph U+2630 when the capture mode is RAW, U+2605 when it
is PARSE, and the empty string for any other mode. -/
theorem mode_indicator_on_press (env : WindowEnv) (s : WindowState)
    (x y : Int) :
    (env.mode = CaptureMode.RAW →
      (step env s (Event.mousePress MouseButton.left x y)).1.mode_indicator =
        "☰") ∧
    (env.mode = CaptureMode.PARSE →
      (step env s (Event.mousePress MouseButton.left x y)).1.mode_indicator =
        "★") ∧
    (env.mode ≠ CaptureMode.RAW → env.mode ≠ CaptureMode.PARSE →
      (step env s (Event.mousePress MouseButton.left x y)).1.mode_indicator =
        "") := by
  refine ⟨fun h => ?_, fun h => ?_, fun h1 h2 => ?_⟩
  · simp [step, get_mode_indicator_char, h]
  · simp [step, get_mode_indicator_char, h]
  · simp [step, get_mode_indicator_char, h1, h2]

/-- Witness for C8: the three modes at a concrete press. -/
theorem mode_indicator_on_press_witness :
    (sample_env.mode = CaptureMode.RAW ∧
      ({ sample_env with mode := CaptureMode.other } : WindowEnv).mode ≠
        CaptureMode.RAW ∧
      ({ sample_env with mode := CaptureMode.other } : WindowEnv).mode ≠
        CaptureMode.PARSE) ∧
    (step sample_env initial_window_state
      (Event.mousePress MouseButton.left 0 0)).1.mode_indicator = "☰" ∧
    (step { sample_env with mode := CaptureMode.PARSE } initial_window_state
      (Event.mousePress MouseButton.left 0 0)).1.mode_indicator = "★" ∧
    (step { sample_env with mode := CaptureMode.other } initial_window_state
      (Event.mousePress MouseButton.left 0 0)).1.mode_indicator = "" :=
  ⟨⟨rfl, by decide, by decide⟩,
    (mode_indicator_on_press sample_env initial_window_state 0 0).1 rfl,
    (mode_indicator_on_press { sample_env with mode := CaptureMode.PARSE }
      initial_window_state 0 0).2.1 rfl,
    (mode_indicator_on_press { sample_env with mode := CaptureMode.other }
      initial_window_state 0 0).2.2 (by decide) (by decide)⟩

/-- C9: a pointer-move event, with no is_selecting guard, overwrites only
the bottom and right edges of selection_rect with the pointer position;
top, left, is_selecting, mode_indicator, is_positioned and pen_width are
unchanged, and no signal is emitted — also when the window is idle. -/
theorem mouse_move_updates_only_bottom_right (env : WindowEnv)
    (s : WindowState) (x y : Int) :
    (step env s (Event.mouseMove x y)).1.selection_rect.bottom = y ∧
    (step env s (Event.mouseMove x y)).1.selection_rect.right = x ∧
    (step env s (Event.mouseMove x y)).1.selection_rect.top =
      s.selection_rect.top ∧
    (step env s (Event.mouseMove x y)).1.selection_rect.left =
      s.selection_rect.left ∧
    (step env s (Event.mouseMove x y)).1.is_selecting = s.is_selecting ∧
    (step env s (Event.mouseMove x y)).1.mode_indicator = s.mode_indicator ∧
    (step env s (Event.mouseMove x y)).1.is_positioned = s.is_positioned ∧
    (step env s (Event.mouseMove x y)).1.pen_width = s.pen_width ∧
    (step env s (Event.mouseMove x y)).2 = [] :=
  ⟨rfl, rfl, rfl, rfl, rfl, rfl, rfl, rfl, rfl⟩

/-- C10: on the Linux platform both branches of the fullscreen dispatch —
the Wayland one and the one for every other display manager — run the same
placement procedure, so the two Linux variants are extensionally equal. -/
theorem linux_fullscreen_branches_equal (dm1 dm2 : DisplayManager) :
    set_fullscreen Platform.LINUX dm1 = set_fullscreen Platform.LINUX dm2 ∧
    set_fullscreen Platform.LINUX dm1 =
      Except.ok FullscreenStrategy.linux_wayland := by
  cases dm1 <;> cases dm2 <;> exact ⟨rfl, rfl⟩

end Normcap
